import Mathlib

/-!
# VISBETS metrics engine — shallow embedding

The repository ships the VisBets NBA prop-betting MVP.  Its core is a
metrics derivation engine (`backend/app/services/metrics_service.py`)
plus two read assemblers (`backend/app/routers/slate.py`,
`backend/app/routers/player_detail.py`) and a frontend projection helper
(`frontend/src/utils/analytics.ts`).  The repository snapshot available
here contains only the project documentation (STATUS.md, MVP_README,
BALLDONTLIE_INTEGRATION.md, …) and UI theme configuration; the engine and
assembler sources themselves are not present.  Every definition below is
therefore modelled from the specification's words (spec.md §3, §4, §6)
and, for the projection helper, from the repository's own documentation
of `calculateProjectedStat`.

Numeric values are modelled as rationals (ℚ): the engine's arithmetic is
plain field arithmetic on decimal inputs, and every concrete value in
the spec's examples (27.5, 26.1, 45.3, …) is an exact decimal.
-/

namespace Visbets

/-- Modelled from the spec: `PlayerGameStat` (spec.md §3; database table
`player_game_stats` in MVP_README) — one row per (player, game): date,
opponent, minutes, and the counting statistics points / rebounds /
assists.  The source `metrics_service.py` is absent from the snapshot;
fields a row may lack are modelled as `Option ℚ` per the spec's
data-quality policy ("a game missing a required field is excluded"). -/
structure PlayerGameStat where
  date : Nat
  opponent : String
  minutes : Option ℚ
  points : Option ℚ
  rebounds : Option ℚ
  assists : Option ℚ
deriving Repr, DecidableEq

/-- Modelled from the spec: the closed `Market` enumeration (spec.md §3,
§6): `points`, `rebounds`, `assists`, `points_rebounds_assists`. -/
inductive Market where
  | points
  | rebounds
  | assists
  | points_rebounds_assists
deriving Repr, DecidableEq

/-- Modelled from the spec: `Line` (spec.md §3; table `sportsbook_lines`)
— a sportsbook-quoted threshold for one (player, market, date) with a
book label.  Multiple lines may exist per player/date. -/
structure Line where
  player_id : Nat
  market : Market
  line_value : ℚ
  book : String
  date : Nat
deriving Repr, DecidableEq

/-- Modelled from the spec: market resolution (spec.md §4.1, §9) —
direct field lookup for the simple markets, sum of the three constituent
fields for the combination market; a game missing a required field
resolves to no value. -/
def resolveMarket (g : PlayerGameStat) : Market → Option ℚ
  | .points => g.points
  | .rebounds => g.rebounds
  | .assists => g.assists
  | .points_rebounds_assists =>
    match g.points, g.rebounds, g.assists with
    | some p, some r, some a => some (p + r + a)
    | _, _, _ => none

/-- The qualifying (contributing) resolved values of a history for a
market, in the history's most-recent-first order. -/
def contributing (games : List PlayerGameStat) (market : Market) : List ℚ :=
  games.filterMap (fun g => resolveMarket g market)

/-- Modelled from the spec: `computeAverage` (spec.md §4.1) over a
most-recent-first history.  Per the invariant of §3, the testable
property of §8 and the glossary, a "last N" window is the mean of the N
most recent qualifying games (qualifying games are selected first, then
the window of N is taken); with no window the whole history contributes
(season average).  Zero contributing games yield `none`, never `0`.  The
running sum/count loop mirrors how aggregation code accumulates. -/
def computeAverage (games : List PlayerGameStat) (market : Market)
    (windowSize : Option Nat) : Option ℚ :=
  let window :=
    match windowSize with
    | some n => (contributing games market).take n
    | none => contributing games market
  let total := window.foldl (· + ·) 0
  let count := window.length
  if count = 0 then none else some (total / count)

/-- Modelled from the spec: `computeDelta` (spec.md §4.1) — `undefined`
when the average is, else `lineValue - average` (line minus average). -/
def computeDelta (lineValue : ℚ) : Option ℚ → Option ℚ
  | none => none
  | some a => some (lineValue - a)

/-- Modelled from the spec: `computePercentDifference` (spec.md §4.1) —
`undefined` when either input is undefined or the average is exactly
zero; else `(delta / average) * 100`. -/
def computePercentDifference : Option ℚ → Option ℚ → Option ℚ
  | some d, some a => if a = 0 then none else some (d / a * 100)
  | _, _ => none

/-- Modelled from the spec: the `DerivedMetric` output value
(spec.md §3) — averages at the three fixed windows plus, when a line was
supplied, the deltas and percentage differences against season and
last-5. -/
structure DerivedMetric where
  season_average : Option ℚ
  last5_average : Option ℚ
  last10_average : Option ℚ
  delta_vs_season : Option ℚ
  delta_vs_last5 : Option ℚ
  percent_vs_season : Option ℚ
  percent_vs_last5 : Option ℚ
deriving Repr, DecidableEq

/-- Modelled from the spec: `buildDerivedMetric` (spec.md §4.1) —
orchestrates `computeAverage` over the fixed window set
{season, last 5, last 10} and attaches delta/percent fields when a
matching line exists. -/
def buildDerivedMetric (games : List PlayerGameStat) (line : Option Line)
    (market : Market) : DerivedMetric :=
  let season := computeAverage games market none
  let last5 := computeAverage games market (some 5)
  let last10 := computeAverage games market (some 10)
  match line with
  | none =>
    { season_average := season, last5_average := last5, last10_average := last10
      delta_vs_season := none, delta_vs_last5 := none
      percent_vs_season := none, percent_vs_last5 := none }
  | some l =>
    let dSeason := computeDelta l.line_value season
    let dLast5 := computeDelta l.line_value last5
    { season_average := season, last5_average := last5, last10_average := last10
      delta_vs_season := dSeason, delta_vs_last5 := dLast5
      percent_vs_season := computePercentDifference dSeason season
      percent_vs_last5 := computePercentDifference dLast5 last5 }

/-- Modelled from the spec: player identity (spec.md §4.2; table
`players`) — id, name, team, position, image reference. -/
structure Player where
  id : Nat
  name : String
  team : String
  position : String
  image_url : String
deriving Repr, DecidableEq

/-- Modelled from the spec: one element of a slate entry's `markets`
list (spec.md §6, `GET /api/slate` response shape):
{market, line_value, book, season_avg, last5_avg, last10_avg,
delta_vs_season, delta_vs_last5, pct_vs_season, pct_vs_last5}. -/
structure MarketEntry where
  market : Market
  line_value : ℚ
  book : String
  season_avg : Option ℚ
  last5_avg : Option ℚ
  last10_avg : Option ℚ
  delta_line_vs_season : Option ℚ
  delta_line_vs_last5 : Option ℚ
  pct_diff_line_vs_season : Option ℚ
  pct_diff_line_vs_last5 : Option ℚ
deriving Repr, DecidableEq

/-- Modelled from the spec: packaging of one line of a slate player
through the Metrics Engine (spec.md §4.2). -/
def buildMarketEntry (history : List PlayerGameStat) (l : Line) : MarketEntry :=
  let d := buildDerivedMetric history (some l) l.market
  { market := l.market, line_value := l.line_value, book := l.book
    season_avg := d.season_average, last5_avg := d.last5_average
    last10_avg := d.last10_average
    delta_line_vs_season := d.delta_vs_season
    delta_line_vs_last5 := d.delta_vs_last5
    pct_diff_line_vs_season := d.percent_vs_season
    pct_diff_line_vs_last5 := d.percent_vs_last5 }

/-- Modelled from the spec: what the data-access collaborator supplies
to the Slate Assembler for one player active on date D (spec.md §4.2):
identity, opponent, full prior history (most-recent-first), and the
player's lines dated D. -/
structure SlateInput where
  player : Player
  opponent : String
  history : List PlayerGameStat
  lines : List Line
deriving Repr, DecidableEq

/-- Modelled from the spec: one player's slate entry (spec.md §6). -/
structure SlateEntry where
  player : Player
  opponent : String
  markets : List MarketEntry
deriving Repr, DecidableEq

/-- Modelled from the spec: the Slate Assembler (spec.md §4.2,
`backend/app/routers/slate.py`, absent from the snapshot) — for each
player supplied by the collaborator, in the supplied order, package the
engine's comparisons for every line of that player dated D; a player
with no lines is included with an empty markets list. -/
def buildSlate (inputs : List SlateInput) : List SlateEntry :=
  inputs.map fun inp =>
    { player := inp.player, opponent := inp.opponent
      markets := inp.lines.map (buildMarketEntry inp.history) }

/-- Modelled from the spec: the per-market averages block of the detail
response (spec.md §6, `season_averages` / `rolling_averages` keyed by
market; markets are the closed set points/rebounds/assists/pra). -/
structure Averages where
  points : Option ℚ
  rebounds : Option ℚ
  assists : Option ℚ
  pra : Option ℚ
deriving Repr, DecidableEq

/-- Averages at one window for every supported market. -/
def buildAverages (history : List PlayerGameStat) (windowSize : Option Nat) :
    Averages :=
  { points := computeAverage history .points windowSize
    rebounds := computeAverage history .rebounds windowSize
    assists := computeAverage history .assists windowSize
    pra := computeAverage history .points_rebounds_assists windowSize }

/-- Modelled from the spec: one element of the detail response's
`current_lines` (spec.md §6): {market, line_value, book, season_avg,
last5_avg, delta_vs_season, delta_vs_last5}. -/
structure LineEntry where
  market : Market
  line_value : ℚ
  book : String
  season_avg : Option ℚ
  last5_avg : Option ℚ
  delta_vs_season : Option ℚ
  delta_vs_last5 : Option ℚ
deriving Repr, DecidableEq

/-- Modelled from the spec: a current line with its deltas computed via
the Metrics Engine against the player's shared averages (spec.md §4.3,
§8: each line treated independently). -/
def buildLineEntry (history : List PlayerGameStat) (l : Line) : LineEntry :=
  let season := computeAverage history l.market none
  let last5 := computeAverage history l.market (some 5)
  { market := l.market, line_value := l.line_value, book := l.book
    season_avg := season, last5_avg := last5
    delta_vs_season := computeDelta l.line_value season
    delta_vs_last5 := computeDelta l.line_value last5 }

/-- Modelled from the spec: the full detail body (spec.md §4.3, §6). -/
structure PlayerDetail where
  player : Player
  season_averages : Averages
  last5_averages : Averages
  last10_averages : Averages
  game_logs : List PlayerGameStat
  current_lines : List LineEntry
deriving Repr, DecidableEq

/-- Modelled from the spec: what the data-access collaborator holds for
one player (spec.md §4.3): identity, full game-stat history
(most-recent-first), active lines for the as-of date. -/
structure DetailRecord where
  player : Player
  history : List PlayerGameStat
  lines : List Line
deriving Repr, DecidableEq

/-- Modelled from the spec: outcome of `get player detail` — either the
explicit not-found signal carrying no body (HTTP 404 equivalent), or the
full profile (spec.md §4.3, §6). -/
inductive DetailResponse where
  | notFound
  | ok (body : PlayerDetail)
deriving Repr, DecidableEq

/-- Number of most recent games returned as the literal game log
(STATUS.md: "Recent 10 games table"). -/
def gameLogCount : Nat := 10

/-- Builds the detail body for a found record. -/
def buildPlayerDetail (r : DetailRecord) : PlayerDetail :=
  { player := r.player
    season_averages := buildAverages r.history none
    last5_averages := buildAverages r.history (some 5)
    last10_averages := buildAverages r.history (some 10)
    game_logs := r.history.take gameLogCount
    current_lines := r.lines.map (buildLineEntry r.history) }

/-- Modelled from the spec: the Detail Assembler (spec.md §4.3,
`backend/app/routers/player_detail.py`, absent from the snapshot) —
look the player id up in the data-access collaborator; an unknown id is
the explicit not-found outcome, a found record yields the full body. -/
def getPlayerDetail (store : List DetailRecord) (playerId : Nat) :
    DetailResponse :=
  match store.find? (fun r => r.player.id == playerId) with
  | none => .notFound
  | some r => .ok (buildPlayerDetail r)

/-- Modelled from the spec: `calculateProjectedStat`
(`frontend/src/utils/analytics.ts`, absent from the snapshot), as
documented in ANALYTICS_TRANSFORMATION_COMPLETE.md ("Weighted average
projection (40% season, 30% last10, 30% last5)") and the projection
breakdown of VISBETS_MVP_FINAL_IMPLEMENTATION.md ("40% Season avg, 30%
Last 10, 30% Last 5"); defined only when all three averages are. -/
def calculateProjectedStat (seasonAvg last10Avg last5Avg : Option ℚ) :
    Option ℚ :=
  match seasonAvg, last10Avg, last5Avg with
  | some s, some t, some f => some ((0.4 : ℚ) * s + 0.3 * t + 0.3 * f)
  | _, _, _ => none

/-! ## Concrete fixtures

Whole-number game rows used by the witnesses (spec.md §8's round-trip
fixture: 5 games with points = [30, 25, 20, 22, 28]), plus a game row
with the decimal values of STATUS.md's `game_logs` example. -/

/-- A fully populated game row of the round-trip fixture. -/
def fixtureGame (d : Nat) (p : ℚ) : PlayerGameStat :=
  { date := d, opponent := "BOS", minutes := some 34
    points := some p, rebounds := some 8, assists := some 7 }

/-- The spec §8 round-trip fixture: 5 games, points 30/25/20/22/28,
most-recent-first. -/
def fixtureGames : List PlayerGameStat :=
  [fixtureGame 5 30, fixtureGame 4 25, fixtureGame 3 20,
   fixtureGame 2 22, fixtureGame 1 28]

/-- A game row whose points field is absent (data-quality gap). -/
def gMissingPoints : PlayerGameStat :=
  { date := 3, opponent := "MIA", minutes := some 12
    points := none, rebounds := some 4, assists := some 2 }

/-- An older, fully populated game beyond the last-5 window. -/
def extraGame : PlayerGameStat :=
  { date := 0, opponent := "DEN", minutes := some 30
    points := some 40, rebounds := some 10, assists := some 5 }

/-- The game row of STATUS.md's `GET /api/player/1` `game_logs` example:
points 29.1, rebounds 8.3, assists 7.9 (pra 45.3). -/
def praFixtureGame : PlayerGameStat :=
  { date := 6, opponent := "PHX", minutes := some 34.2
    points := some 29.1, rebounds := some 8.3, assists := some 7.9 }

/-- A demo player identity (STATUS.md sample data). -/
def lebron : Player :=
  { id := 1, name := "LeBron James", team := "LAL", position := "F"
    image_url := "https://cdn.nba.com/headshots/nba/latest/1040x760/237.png" }

/-- A one-record data-access store holding only player id 1. -/
def demoStore : List DetailRecord :=
  [{ player := lebron, history := fixtureGames, lines := [] }]

/-- A slate input for a player active on the date but with no lines. -/
def linelessInput : SlateInput :=
  { player := lebron, opponent := "BOS", history := fixtureGames, lines := [] }

/-- A points line from one book. -/
def bookLine1 : Line :=
  { player_id := 1, market := .points, line_value := 27
    book := "PrizePicks", date := 7 }

/-- A points line for the same player, market and date from another book. -/
def bookLine2 : Line :=
  { player_id := 1, market := .points, line_value := 28
    book := "DraftKings", date := 7 }

/-! ## Claims -/

/-- Claim C1: for every line value and every defined average, the delta
computed by the Metrics Engine is line minus average, with the same sign
convention for the season variant and the rolling variant; 27.5 against
26.1 yields +1.4 and 27.5 against 29.3 yields −1.8. -/
theorem delta_is_line_minus_average :
    (∀ (games : List PlayerGameStat) (l : Line) (m : Market),
        (buildDerivedMetric games (some l) m).delta_vs_season
            = (computeAverage games m none).map (fun a => l.line_value - a)
          ∧ (buildDerivedMetric games (some l) m).delta_vs_last5
            = (computeAverage games m (some 5)).map (fun a => l.line_value - a))
      ∧ computeDelta 27.5 (some 26.1) = some 1.4
      ∧ computeDelta 27.5 (some 29.3) = some (-1.8) := by
  refine ⟨fun games l m => ⟨?_, ?_⟩, ?_, ?_⟩
  · cases h : computeAverage games m none <;>
      simp [buildDerivedMetric, computeDelta, h]
  · cases h : computeAverage games m (some 5) <;>
      simp [buildDerivedMetric, computeDelta, h]
  · norm_num [computeDelta]
  · norm_num [computeDelta]

/-- Claim C2: `computePercentDifference` is undefined whenever its delta
is undefined, whenever its average is undefined, and whenever the
average is exactly 0 (division by zero is a defined no-value result);
otherwise it is `(delta / average) * 100`. -/
theorem percent_difference_policy :
    (∀ a : Option ℚ, computePercentDifference none a = none)
      ∧ (∀ d : Option ℚ, computePercentDifference d none = none)
      ∧ (∀ d : ℚ, computePercentDifference (some d) (some 0) = none)
      ∧ ∀ d a : ℚ, a ≠ 0 →
          computePercentDifference (some d) (some a) = some (d / a * 100) := by
  refine ⟨fun a => ?_, fun d => ?_, fun d => ?_, fun d a ha => ?_⟩
  · cases a <;> rfl
  · cases d <;> rfl
  · simp [computePercentDifference]
  · simp [computePercentDifference, ha]

/-- Witness for C2 at delta 1.4 and average 26.1. -/
theorem percent_difference_policy_witness :
    computePercentDifference (some 1.4) (some 26.1) = some (1.4 / 26.1 * 100) :=
  percent_difference_policy.2.2.2 1.4 26.1 (by norm_num)

/-- Claim C3: on a non-empty history with no window, `computeAverage`
is the arithmetic mean of the market's resolved value over exactly the
contributing games; a game whose required field is missing changes
neither sum nor count. -/
theorem season_average_is_mean (games : List PlayerGameStat) (m : Market)
    (_hne : games ≠ []) :
    (contributing games m ≠ [] →
        computeAverage games m none
          = some ((contributing games m).sum / (contributing games m).length))
      ∧ (contributing games m = [] → computeAverage games m none = none)
      ∧ ∀ g, resolveMarket g m = none →
          computeAverage (g :: games) m none = computeAverage games m none := by
  refine ⟨fun h => ?_, fun h => ?_, fun g hg => ?_⟩
  · simp [computeAverage, List.length_eq_zero, h, List.sum_eq_foldl]
  · simp [computeAverage, h]
  · simp [computeAverage, contributing, List.filterMap_cons, hg]

/-- Witness for C3: a row missing its points field drops out of the
season points average of the fixture, and that average is the mean over
the contributing rows. -/
theorem season_average_is_mean_witness :
    computeAverage (gMissingPoints :: fixtureGames) .points none
        = computeAverage fixtureGames .points none
      ∧ computeAverage fixtureGames .points none
        = some ((contributing fixtureGames .points).sum
            / (contributing fixtureGames .points).length) :=
  ⟨(season_average_is_mean fixtureGames .points (by decide)).2.2 gMissingPoints
      (by decide),
   (season_average_is_mean fixtureGames .points (by decide)).1 (by decide)⟩

/-- Claim C4: a last-N window averages the (at most) N most recent
qualifying games — games older than a full window never affect it; with
fewer than N qualifying games it averages exactly the available ones;
with zero it is undefined; on the fixture with points [30, 25, 20, 22,
28] the last-5 points average is exactly 25. -/
theorem lastN_average_window (games : List PlayerGameStat) (m : Market) (n : Nat) :
    (n ≤ (contributing games m).length →
        ∀ older : List PlayerGameStat,
          computeAverage (games ++ older) m (some n) = computeAverage games m (some n))
      ∧ ((contributing games m).length ≤ n →
          computeAverage games m (some n) = computeAverage games m none)
      ∧ (contributing games m = [] → computeAverage games m (some n) = none)
      ∧ computeAverage fixtureGames .points (some 5) = some 25 := by
  refine ⟨fun h older => ?_, fun h => ?_, fun h => ?_, ?_⟩
  · have hc : contributing (games ++ older) m
        = contributing games m ++ contributing older m := by
      simp [contributing, List.filterMap_append]
    simp [computeAverage, hc, List.take_append_of_le_length h]
  · simp [computeAverage, List.take_of_length_le h]
  · simp [computeAverage, h]
  · simp [computeAverage, contributing, fixtureGames, fixtureGame, resolveMarket]
    norm_num

/-- Witness for C4: appending an older 40-point game does not move the
fixture's full last-5 window, which equals exactly 25. -/
theorem lastN_average_window_witness :
    computeAverage (fixtureGames ++ [extraGame]) .points (some 5)
        = computeAverage fixtureGames .points (some 5)
      ∧ computeAverage fixtureGames .points (some 5) = some 25 :=
  ⟨(lastN_average_window fixtureGames .points 5).1 (by decide) [extraGame],
   (lastN_average_window fixtureGames .points 5).2.2.2⟩

/-- Claim C5: zero contributing games make `computeAverage` undefined
(never 0); the engine and both assemblers are total on business
conditions — an empty history still yields a `DerivedMetric`, a market
entry and a slate entry, all of whose averages, deltas and percents are
the no-value result. -/
theorem zero_games_yield_undefined :
    (∀ (m : Market) (w : Option Nat), computeAverage [] m w = none)
      ∧ (∀ (games : List PlayerGameStat) (m : Market) (w : Option Nat),
          contributing games m = [] → computeAverage games m w = none)
      ∧ (∀ (line : Option Line) (m : Market),
          buildDerivedMetric [] line m
            = { season_average := none, last5_average := none
                last10_average := none, delta_vs_season := none
                delta_vs_last5 := none, percent_vs_season := none
                percent_vs_last5 := none })
      ∧ (∀ l : Line, buildMarketEntry [] l
            = { market := l.market, line_value := l.line_value, book := l.book
                season_avg := none, last5_avg := none, last10_avg := none
                delta_line_vs_season := none, delta_line_vs_last5 := none
                pct_diff_line_vs_season := none, pct_diff_line_vs_last5 := none })
      ∧ ∀ (p : Player) (opp : String) (lines : List Line),
          buildSlate [{ player := p, opponent := opp, history := [], lines := lines }]
            = [{ player := p, opponent := opp
                 markets := lines.map (buildMarketEntry []) }] := by
  have hnone : ∀ (m : Market) (w : Option Nat), computeAverage [] m w = none := by
    intro m w
    cases w <;> simp [computeAverage, contributing]
  refine ⟨hnone, fun games m w h => ?_, fun line m => ?_, fun l => ?_,
    fun p opp lines => ?_⟩
  · cases w <;> simp [computeAverage, h]
  · cases line <;>
      simp [buildDerivedMetric, hnone, computeDelta, computePercentDifference]
  · simp [buildMarketEntry, buildDerivedMetric, hnone, computeDelta,
      computePercentDifference]
  · simp [buildSlate]

/-- Witness for C5: a history whose only row lacks its points field has
an undefined season points average. -/
theorem zero_games_yield_undefined_witness :
    computeAverage [gMissingPoints] .points none = none :=
  zero_games_yield_undefined.2.1 [gMissingPoints] .points none (by decide)

/-- Claim C6: for every game row whose three constituent fields are
present, the combination market `points_rebounds_assists` resolves to
their exact sum; on the documented game row with points 29.1, rebounds
8.3 and assists 7.9 it resolves to 45.3. -/
theorem pra_market_resolves_to_sum :
    (∀ (g : PlayerGameStat) (p r a : ℚ), g.points = some p → g.rebounds = some r →
        g.assists = some a →
        resolveMarket g .points_rebounds_assists = some (p + r + a))
      ∧ resolveMarket praFixtureGame .points_rebounds_assists = some 45.3 := by
  constructor
  · intro g p r a hp hr ha
    simp [resolveMarket, hp, hr, ha]
  · show (match praFixtureGame.points, praFixtureGame.rebounds,
        praFixtureGame.assists with
      | some p, some r, some a => some (p + r + a)
      | _, _, _ => none) = some 45.3
    norm_num [praFixtureGame]

/-- Witness for C6 at the documented game row. -/
theorem pra_market_resolves_to_sum_witness :
    resolveMarket praFixtureGame .points_rebounds_assists
      = some ((29.1 : ℚ) + 8.3 + 7.9) :=
  pra_market_resolves_to_sum.1 praFixtureGame 29.1 8.3 7.9 rfl rfl rfl

/-- Claim C7: a player identifier matching no record of the data-access
collaborator makes the detail assembler answer the explicit not-found
outcome, which carries no body; it never answers `ok` with any
(empty or undefined-filled) profile. -/
theorem unknown_player_not_found (store : List DetailRecord) (playerId : Nat)
    (h : ∀ r ∈ store, r.player.id ≠ playerId) :
    getPlayerDetail store playerId = .notFound
      ∧ ∀ body, getPlayerDetail store playerId ≠ .ok body := by
  have hf : store.find? (fun r => r.player.id == playerId) = none :=
    List.find?_eq_none.mpr (fun r hr => by simpa using h r hr)
  refine ⟨?_, fun body => ?_⟩
  · simp [getPlayerDetail, hf]
  · simp [getPlayerDetail, hf]

/-- Witness for C7: player 99999 is unknown to the one-record store. -/
theorem unknown_player_not_found_witness :
    getPlayerDetail demoStore 99999 = .notFound :=
  (unknown_player_not_found demoStore 99999 (by decide)).1

/-- Claim C8: the slate keeps every player the collaborator supplies for
the date — the output has one entry per supplied player, each supplied
player's entry is present, and a player with zero lines is included with
an empty markets list rather than excluded. -/
theorem slate_includes_lineless_players (inputs : List SlateInput)
    (inp : SlateInput) (hmem : inp ∈ inputs) :
    (buildSlate inputs).length = inputs.length
      ∧ ({ player := inp.player, opponent := inp.opponent
           markets := inp.lines.map (buildMarketEntry inp.history) } : SlateEntry)
          ∈ buildSlate inputs
      ∧ (inp.lines = [] →
          ({ player := inp.player, opponent := inp.opponent, markets := [] }
              : SlateEntry) ∈ buildSlate inputs) := by
  refine ⟨by simp [buildSlate], List.mem_map_of_mem _ hmem, fun hl => ?_⟩
  have h := List.mem_map_of_mem
    (fun inp : SlateInput =>
      ({ player := inp.player, opponent := inp.opponent
         markets := inp.lines.map (buildMarketEntry inp.history) } : SlateEntry))
    hmem
  simpa [buildSlate, hl] using h

/-- Witness for C8: the lineless demo player appears on the slate with
an empty markets list. -/
theorem slate_includes_lineless_players_witness :
    (buildSlate [linelessInput]).length = 1
      ∧ ({ player := lebron, opponent := "BOS", markets := [] } : SlateEntry)
          ∈ buildSlate [linelessInput] := by
  have h := slate_includes_lineless_players [linelessInput] linelessInput
    (List.mem_singleton.mpr rfl)
  exact ⟨h.1, h.2.2 rfl⟩

/-- Claim C9: two lines for the same player, market and date from
different books appear as two separate `current_lines` entries, each
keeping its own book and line value, each with its own delta computed
against the one shared pair of averages for that market; nothing is
merged. -/
theorem multiple_books_separate_entries (p : Player)
    (history : List PlayerGameStat) (l1 l2 : Line) (hm : l1.market = l2.market) :
    (buildPlayerDetail { player := p, history := history, lines := [l1, l2] }).current_lines
        = [buildLineEntry history l1, buildLineEntry history l2]
      ∧ (buildLineEntry history l1).season_avg = (buildLineEntry history l2).season_avg
      ∧ (buildLineEntry history l1).last5_avg = (buildLineEntry history l2).last5_avg
      ∧ (buildLineEntry history l1).delta_vs_season
          = computeDelta l1.line_value (computeAverage history l1.market none)
      ∧ (buildLineEntry history l2).delta_vs_season
          = computeDelta l2.line_value (computeAverage history l1.market none)
      ∧ (buildLineEntry history l1).book = l1.book
      ∧ (buildLineEntry history l2).book = l2.book := by
  refine ⟨by simp [buildPlayerDetail], ?_, ?_, rfl, ?_, rfl, rfl⟩
  · simp [buildLineEntry, hm]
  · simp [buildLineEntry, hm]
  · simp [buildLineEntry, hm]

/-- Witness for C9: a PrizePicks and a DraftKings points line for the
same date both appear, with equal shared season averages. -/
theorem multiple_books_separate_entries_witness :
    (buildPlayerDetail
        { player := lebron, history := fixtureGames
          lines := [bookLine1, bookLine2] }).current_lines
        = [buildLineEntry fixtureGames bookLine1, buildLineEntry fixtureGames bookLine2]
      ∧ (buildLineEntry fixtureGames bookLine1).season_avg
          = (buildLineEntry fixtureGames bookLine2).season_avg :=
  ⟨(multiple_books_separate_entries lebron fixtureGames bookLine1 bookLine2 rfl).1,
   (multiple_books_separate_entries lebron fixtureGames bookLine1 bookLine2 rfl).2.1⟩

/-- Claim C10: whenever the season, last-10 and last-5 averages are all
defined, `calculateProjectedStat` is the weighted average
0.4·season + 0.3·last10 + 0.3·last5. -/
theorem projected_stat_weighted (sa ta fa : Option ℚ) (s t f : ℚ)
    (hs : sa = some s) (ht : ta = some t) (hf : fa = some f) :
    calculateProjectedStat sa ta fa
      = some ((0.4 : ℚ) * s + 0.3 * t + 0.3 * f) := by
  simp [calculateProjectedStat, hs, ht, hf]

/-- Witness for C10: the documented breakdown values season 26.1,
last-10 27.0 and last-5 29.3 project to exactly 27.33. -/
theorem projected_stat_weighted_witness :
    calculateProjectedStat (some 26.1) (some 27.0) (some 29.3)
      = some (27.33 : ℚ) :=
  (projected_stat_weighted (some 26.1) (some 27.0) (some 29.3)
      26.1 27.0 29.3 rfl rfl rfl).trans (by norm_num)

end Visbets
